import Mathlib

/-!
Verification development for the 4d.qbo sync bridge (4D EMR <-> QuickBooks
Online). The repository ships the README/process documentation and the React
frontend; the backend modules (api/modules/sync_processor.py, the /sync/initiate
endpoint, api/modules/qbo.py) are not in the tree, so the reconciliation engine,
cursor store and orchestrator below are modelled from the specification, while
the frontend (App.tsx, services/api.ts, SyncTable.tsx) is embedded from source.
-/

/-! ## Reconciliation engine data model -/

/-- Modelled from the spec: the billing-source lifecycle state of a quote
(spec section 3, `desiredStatus` in {active, completed, inactive}); the backend
module api/modules/sync_processor.py is not under src/. -/
inductive DesiredStatus
  | active
  | completed
  | inactive
deriving DecidableEq, Repr

/-- Modelled from the spec: result of looking up an externalRef against the
ledger — `absent` or `present` with the ledger document id (spec section 3). -/
inductive ObservedLedgerState
  | absent
  | present (docId : String)
deriving DecidableEq, Repr

/-- Modelled from the spec: the derived reconciliation decision, a closed sum
type `CreateDocument | DeleteDocument(id) | NoAction` (spec sections 3, 9). -/
inductive Decision
  | createDocument
  | deleteDocument (docId : String)
  | noAction
deriving DecidableEq, Repr

/-- Modelled from the spec: one line of a command, `{catalogRef, description,
quantity, unitAmount}` (spec section 3). -/
structure LineItem where
  catalogRef : String
  description : String
  quantity : Nat
  unitAmount : Int
deriving DecidableEq, Repr

/-- Modelled from the spec: the unit of reconciliation work built from one
quote: externalRef, desiredStatus, line items, and a run-scoped batch id
(`bId` in the README process step 3). -/
structure Command where
  externalRef : String
  desiredStatus : DesiredStatus
  lineItems : List LineItem
  batchId : Nat
deriving DecidableEq, Repr

/-- Modelled from the spec: the per-command report entry `{externalRef,
decision taken, success flag, ledger-assigned id if created, error detail if
failed}` (spec section 3). -/
structure RunResult where
  externalRef : String
  decision : Decision
  success : Bool
  ledgerId : Option String
  error : Option String
deriving DecidableEq, Repr

/-- The ledger seen through `lookupByRef`: an association of externalRef to
ledger document id. -/
abbrev Ledger := List (String × String)

/-- Lookup of an externalRef in the ledger association list. -/
def ledgerLookup : Ledger → String → Option String
  | [], _ => none
  | (r, d) :: rest, ref => if r = ref then some d else ledgerLookup rest ref

/-- Removal of every entry for an externalRef from the ledger. -/
def ledgerDelete : Ledger → String → Ledger
  | [], _ => []
  | (r, d) :: rest, ref =>
      if r = ref then ledgerDelete rest ref else (r, d) :: ledgerDelete rest ref

/-- Modelled from the spec: `lookupByRef` observation of one externalRef
(spec section 4.3). -/
def observe (l : Ledger) (ref : String) : ObservedLedgerState :=
  match ledgerLookup l ref with
  | some d => ObservedLedgerState.present d
  | none => ObservedLedgerState.absent

/-- Modelled from the spec: the decision table of section 4.2 — the pure
function of (desiredStatus, ObservedLedgerState) computed by
SyncProcessor.process_commands (README step 6). -/
def decideAction : DesiredStatus → ObservedLedgerState → Decision
  | DesiredStatus.active, ObservedLedgerState.absent => Decision.createDocument
  | DesiredStatus.active, ObservedLedgerState.present _ => Decision.noAction
  | DesiredStatus.completed, ObservedLedgerState.absent => Decision.createDocument
  | DesiredStatus.completed, ObservedLedgerState.present _ => Decision.noAction
  | DesiredStatus.inactive, ObservedLedgerState.absent => Decision.noAction
  | DesiredStatus.inactive, ObservedLedgerState.present d => Decision.deleteDocument d

/-! ## Reconciliation engine execution

The remote outcome of a create/delete operation is abstracted by an oracle
`remoteOk : Nat → Bool` keyed by the run-scoped batch id, and ledger-assigned
document ids by `assignId : Nat → String`; NoAction decisions short-circuit
with success and no remote call (spec section 4.2 step 3). -/

/-- Modelled from the spec: the RunResult produced for one command from the
single consistent lookup snapshot `snap`, the remote outcome oracle and the
id assignment (spec section 4.2 steps 2-7). -/
def runResultFor (snap : String → ObservedLedgerState) (remoteOk : Nat → Bool)
    (assignId : Nat → String) (c : Command) : RunResult :=
  match decideAction c.desiredStatus (snap c.externalRef) with
  | Decision.noAction =>
      ⟨c.externalRef, Decision.noAction, true, none, none⟩
  | Decision.createDocument =>
      if remoteOk c.batchId then
        ⟨c.externalRef, Decision.createDocument, true, some (assignId c.batchId), none⟩
      else
        ⟨c.externalRef, Decision.createDocument, false, none, some "remote failure"⟩
  | Decision.deleteDocument d =>
      if remoteOk c.batchId then
        ⟨c.externalRef, Decision.deleteDocument d, true, none, none⟩
      else
        ⟨c.externalRef, Decision.deleteDocument d, false, none, some "remote failure"⟩

/-- Modelled from the spec: the effect of executing one command on the ledger —
a successful create adds a document for the externalRef, a successful delete
removes it, NoAction and failed operations leave the ledger unchanged. -/
def applyCommand (snap : String → ObservedLedgerState) (remoteOk : Nat → Bool)
    (assignId : Nat → String) (l : Ledger) (c : Command) : Ledger :=
  match decideAction c.desiredStatus (snap c.externalRef) with
  | Decision.noAction => l
  | Decision.createDocument =>
      if remoteOk c.batchId then (c.externalRef, assignId c.batchId) :: l else l
  | Decision.deleteDocument _ =>
      if remoteOk c.batchId then ledgerDelete l c.externalRef else l

/-- Modelled from the spec: `reconcile` over an ordered sequence of commands —
decisions are computed from a single snapshot of the initial ledger, one
RunResult is returned per command in input order, and the resulting ledger
reflects every successful create/delete (spec section 4.2). -/
def reconcile (l : Ledger) (remoteOk : Nat → Bool) (assignId : Nat → String)
    (cs : List Command) : List RunResult × Ledger :=
  let snap := fun ref => observe l ref
  (cs.map (runResultFor snap remoteOk assignId),
   cs.foldl (applyCommand snap remoteOk assignId) l)

/-! ## Run orchestrator and sync cursor -/

/-- Modelled from the spec: a run is fully successful when every RunResult,
including build failures recorded as failed RunResults, is a success
(spec section 4.5 step 4). -/
def allSuccess (rs : List RunResult) : Bool :=
  rs.all fun r => r.success

/-- Modelled from the spec: the externally visible outcome of one run of the
/sync/initiate process — results, cursor after the run, whether a
DebugArtifact was written, and whether the run is reported failed
(spec sections 3, 4.5; README process steps 8-10). -/
structure RunReport where
  results : List RunResult
  cursorAfter : Nat
  debugArtifactWritten : Bool
  runFailed : Bool
deriving DecidableEq, Repr

/-- Modelled from the spec: the Run Orchestrator outcome for a completed run —
the cursor is overwritten with the run start time only on full success, and a
DebugArtifact is written when debug was requested or the run failed
(spec section 4.5 steps 4-5; README steps 8 and 10). -/
def orchestrate (cursor startTime : Nat) (debug : Bool)
    (results : List RunResult) : RunReport :=
  let ok := allSuccess results
  { results := results
    cursorAfter := if ok then startTime else cursor
    debugArtifactWritten := debug || !ok
    runFailed := !ok }

/-- Modelled from the spec: the persisted cursor after a run, covering the
aborted case — a run aborted between batches leaves the cursor unadvanced
(spec section 5, cancellation). -/
def cursorAfterRun (cursor startTime : Nat) (debug : Bool)
    (results : List RunResult) (aborted : Bool) : Nat :=
  if aborted then cursor
  else (orchestrate cursor startTime debug results).cursorAfter

/-! ## Batch correlation -/

/-- Modelled from the spec: one sub-response outcome of the remote batch API —
success with the ledger-assigned id when a document was created, or an error
message (spec sections 4.3, 6). -/
inductive Outcome
  | ok (ledgerId : Option String)
  | err (msg : String)
deriving DecidableEq, Repr

/-- Lookup of a batch id among the sub-responses of the remote batch API. -/
def respLookup : List (Nat × Outcome) → Nat → Option Outcome
  | [], _ => none
  | (b, o) :: rest, bid => if b = bid then some o else respLookup rest bid

/-- Modelled from the spec: the RunResult for one command given its decision
and the sub-response correlated to it by batch id (spec section 4.2 step 4). -/
def resultFromOutcome (c : Command) (d : Decision) : Option Outcome → RunResult
  | some (Outcome.ok lid) => ⟨c.externalRef, d, true, lid, none⟩
  | some (Outcome.err m) => ⟨c.externalRef, d, false, none, some m⟩
  | none => ⟨c.externalRef, d, false, none, some "missing response"⟩

/-- Modelled from the spec: mapping the sub-responses of the remote batch API
back to the commands by batch id — never by array position — producing one
RunResult per command in input order (spec section 4.2 steps 4 and 7). -/
def correlateResults (snap : String → ObservedLedgerState)
    (responses : List (Nat × Outcome)) (cs : List Command) : List RunResult :=
  cs.map fun c =>
    resultFromOutcome c (decideAction c.desiredStatus (snap c.externalRef))
      (respLookup responses c.batchId)

/-! ## Ledger adapter batching -/

/-- Modelled from the spec: the type of one batched ledger operation,
create or delete (spec section 4.3). -/
inductive OpType
  | create
  | delete
deriving DecidableEq, Repr

/-- Modelled from the spec: one operation submitted to the remote batch API,
`{batchId, type, payload}` (spec section 4.3). -/
structure BatchOp where
  bId : Nat
  opType : OpType
  payload : String
deriving DecidableEq, Repr

/-- Fuel-indexed chunking of the operation list; the fuel is instantiated with
the length of the list, which one chunk per step always dominates. -/
def chunkOps (maxB : Nat) : Nat → List BatchOp → List (List BatchOp)
  | 0, _ => []
  | _ + 1, [] => []
  | fuel + 1, op :: rest =>
      (op :: rest).take maxB :: chunkOps maxB fuel ((op :: rest).drop maxB)

/-- Modelled from the spec: the engine partitions the create/delete operations
into ledger-API batches no larger than the configured maximum batch size
(spec section 4.2 step 3). -/
def partitionBatches (maxB : Nat) (ops : List BatchOp) : List (List BatchOp) :=
  chunkOps maxB ops.length ops

/-- Modelled from the spec: the outcome of handing one batch to the Ledger
Adapter — rejected locally before any network call, or submitted to the remote
API which answers one outcome per operation (spec section 4.3). -/
inductive AdapterResult
  | rejectedLocally (msg : String)
  | submitted (responses : List (Nat × Outcome))
deriving DecidableEq, Repr

/-- Modelled from the spec: `submitBatch` of the Ledger Adapter — a batch
larger than the configured maximum batch size is rejected locally, before the
remote transport `remote` is ever consulted (spec section 4.3). -/
def submitBatch (maxB : Nat) (remote : List BatchOp → List (Nat × Outcome))
    (ops : List BatchOp) : AdapterResult :=
  if ops.length > maxB then AdapterResult.rejectedLocally "batch size exceeds limit"
  else AdapterResult.submitted (remote ops)

/-! ## Frontend: router and route guard (App.tsx) -/

/-- The two pages of the frontend router in App.tsx. -/
inductive Page
  | login
  | dashboard
deriving DecidableEq, Repr

/-- What a route renders: a page, or a `Navigate to="..." replace` redirect. -/
inductive RouteElement
  | page (p : Page)
  | redirect (dest : String)
deriving DecidableEq, Repr

/-- From App.tsx: the auth check stub — it always returns false because auth
is not implemented yet. -/
def isAuthenticated : Bool := false

/-- From App.tsx: ProtectedRoute renders its children only when
`isAuthenticated()` holds, and otherwise redirects to "/". -/
def ProtectedRoute (children : Page) : RouteElement :=
  if isAuthenticated then RouteElement.page children else RouteElement.redirect "/"

/-- From App.tsx: the route table — "/" renders Login, "/dashboard" renders
Dashboard behind ProtectedRoute, and every other path redirects to "/". -/
def appRoute (path : String) : RouteElement :=
  if path = "/" then RouteElement.page Page.login
  else if path = "/dashboard" then ProtectedRoute Page.dashboard
  else RouteElement.redirect "/"

/-! ## Frontend: sync client (services/api.ts) -/

/-- From services/api.ts: the axios base URL. -/
def API_BASE_URL : String := "/api.v1"

/-- From services/api.ts, initiateSync: the URLSearchParams accumulated before
the GET — `if (fromDate)` appends from_date (a JavaScript truthiness test, so
an empty string is skipped like an absent argument), and `if (debug)` appends
debug=true. -/
def initiateSyncParams (fromDate : Option String) (debug : Bool) :
    List (String × String) :=
  let params : List (String × String) := []
  let params :=
    match fromDate with
    | some d => if d = "" then params else params ++ [("from_date", d)]
    | none => params
  if debug then params ++ [("debug", "true")] else params

/-- Lookup of a query parameter by key, first occurrence. -/
def paramLookup : List (String × String) → String → Option String
  | [], _ => none
  | (k, v) :: rest, key => if k = key then some v else paramLookup rest key

/-- Serialization of the query parameters, `k=v` joined by `&` as
URLSearchParams.toString does on these unreserved values. -/
def serializeParams : List (String × String) → String
  | [] => ""
  | (k, v) :: [] => k ++ "=" ++ v
  | (k, v) :: p :: rest => k ++ "=" ++ v ++ "&" ++ serializeParams (p :: rest)

/-- From services/api.ts, initiateSync: the requested URL,
`/sync/initiate?${params.toString()}` under the axios base URL. -/
def initiateSyncUrl (fromDate : Option String) (debug : Bool) : String :=
  API_BASE_URL ++ "/sync/initiate?" ++ serializeParams (initiateSyncParams fromDate debug)

/-! ## Frontend: sync results table (SyncTable.tsx) -/

/-- From SyncTable.tsx: one sync result row,
`{invoice_number, status, synced, action}`. -/
structure SyncResultRow where
  invoice_number : Int
  status : String
  synced : Bool
  action : String
deriving DecidableEq, Repr

/-- What SyncTable renders: the empty-state message, or a table of rows each
carrying its React key (the invoice number) in list order. -/
inductive SyncTableView
  | emptyState (message : String)
  | table (rows : List (Int × SyncResultRow))
deriving DecidableEq, Repr

/-- From SyncTable.tsx: `if (!results || results.length === 0)` renders the
empty state, otherwise one table row per result keyed by its invoice_number in
input order; a null or undefined results prop is modelled as `none`. -/
def SyncTable (results : Option (List SyncResultRow)) : SyncTableView :=
  match results with
  | none => SyncTableView.emptyState "No sync results available."
  | some rs =>
      if rs.length = 0 then SyncTableView.emptyState "No sync results available."
      else SyncTableView.table (rs.map fun r => (r.invoice_number, r))

/-! ## Helper lemmas -/

theorem observe_eq_of_lookup_eq {l1 l2 : Ledger} {ref : String}
    (h : ledgerLookup l1 ref = ledgerLookup l2 ref) :
    observe l1 ref = observe l2 ref := by
  unfold observe
  rw [h]

theorem ledgerLookup_delete_self (l : Ledger) (ref : String) :
    ledgerLookup (ledgerDelete l ref) ref = none := by
  induction l with
  | nil => rfl
  | cons p rest ih =>
    obtain ⟨r, d⟩ := p
    by_cases h : r = ref
    · simp [ledgerDelete, h, ih]
    · simp [ledgerDelete, ledgerLookup, h, ih]

theorem ledgerLookup_delete_ne (l : Ledger) (refDel refQ : String) (h : refDel ≠ refQ) :
    ledgerLookup (ledgerDelete l refDel) refQ = ledgerLookup l refQ := by
  induction l with
  | nil => rfl
  | cons p rest ih =>
    obtain ⟨r, d⟩ := p
    by_cases hr : r = refDel
    · subst hr
      simp [ledgerDelete, ledgerLookup, ih, h]
    · simp [ledgerDelete, hr, ledgerLookup, ih]

theorem applyCommand_lookup_ne (snap : String → ObservedLedgerState)
    (ok : Nat → Bool) (idf : Nat → String) (l : Ledger) (c : Command) (ref : String)
    (h : c.externalRef ≠ ref) :
    ledgerLookup (applyCommand snap ok idf l c) ref = ledgerLookup l ref := by
  unfold applyCommand
  cases hd : decideAction c.desiredStatus (snap c.externalRef) with
  | noAction => rfl
  | createDocument =>
    by_cases hk : ok c.batchId
    · simp [hk, ledgerLookup, h]
    · simp [hk]
  | deleteDocument d =>
    by_cases hk : ok c.batchId
    · simp [hk, ledgerLookup_delete_ne l c.externalRef ref h]
    · simp [hk]

theorem foldl_lookup_ne (snap : String → ObservedLedgerState)
    (ok : Nat → Bool) (idf : Nat → String) (cs : List Command) (l : Ledger)
    (ref : String) (h : ∀ c ∈ cs, c.externalRef ≠ ref) :
    ledgerLookup (cs.foldl (applyCommand snap ok idf) l) ref = ledgerLookup l ref := by
  induction cs generalizing l with
  | nil => rfl
  | cons c rest ih =>
    rw [List.foldl_cons, ih _ (fun x hx => h x (List.mem_cons_of_mem _ hx)),
      applyCommand_lookup_ne snap ok idf l c ref (h c (List.mem_cons_self _ _))]

theorem runResultFor_decision (snap : String → ObservedLedgerState)
    (ok : Nat → Bool) (idf : Nat → String) (c : Command) :
    (runResultFor snap ok idf c).decision
      = decideAction c.desiredStatus (snap c.externalRef) := by
  unfold runResultFor
  cases hd : decideAction c.desiredStatus (snap c.externalRef) with
  | noAction => rfl
  | createDocument => by_cases hk : ok c.batchId <;> simp [hk]
  | deleteDocument d => by_cases hk : ok c.batchId <;> simp [hk]

theorem resultFromOutcome_externalRef (c : Command) (d : Decision)
    (oo : Option Outcome) :
    (resultFromOutcome c d oo).externalRef = c.externalRef := by
  cases oo with
  | none => rfl
  | some o => cases o <;> rfl

theorem respLookup_eq_none_iff (rs : List (Nat × Outcome)) (bid : Nat) :
    respLookup rs bid = none ↔ bid ∉ rs.map Prod.fst := by
  induction rs with
  | nil => simp [respLookup]
  | cons p rest ih =>
    obtain ⟨b, o⟩ := p
    by_cases h : b = bid
    · subst h
      simp [respLookup]
    · have hstep : respLookup ((b, o) :: rest) bid = respLookup rest bid := by
        simp [respLookup, h]
      rw [hstep, ih, List.map_cons]
      constructor
      · intro hn hm
        rcases List.mem_cons.mp hm with he | hm'
        · exact h he.symm
        · exact hn hm'
      · intro hn hm
        exact hn (List.mem_cons_of_mem _ hm)

theorem respLookup_eq_some_iff (rs : List (Nat × Outcome)) (bid : Nat) (o : Outcome)
    (hnd : (rs.map Prod.fst).Nodup) :
    respLookup rs bid = some o ↔ (bid, o) ∈ rs := by
  induction rs with
  | nil => simp [respLookup]
  | cons p rest ih =>
    obtain ⟨b, o'⟩ := p
    rw [List.map_cons, List.nodup_cons] at hnd
    obtain ⟨hb, hrest⟩ := hnd
    by_cases h : b = bid
    · subst h
      constructor
      · intro h'
        have ho : o' = o := by simpa [respLookup] using h'
        subst ho
        exact List.mem_cons_self _ _
      · intro h'
        rcases List.mem_cons.mp h' with he | hm
        · injection he with h1 h2
          subst h2
          simp [respLookup]
        · exact absurd (List.mem_map_of_mem Prod.fst hm) hb
    · have hstep : respLookup ((b, o') :: rest) bid = respLookup rest bid := by
        simp [respLookup, h]
      rw [hstep, ih hrest]
      constructor
      · exact fun h' => List.mem_cons_of_mem _ h'
      · intro h'
        rcases List.mem_cons.mp h' with he | hm
        · injection he with h1 h2
          exact absurd h1.symm h
        · exact hm

theorem respLookup_perm (rs1 rs2 : List (Nat × Outcome)) (h : rs1.Perm rs2)
    (hnd : (rs1.map Prod.fst).Nodup) (bid : Nat) :
    respLookup rs1 bid = respLookup rs2 bid := by
  have hnd2 : (rs2.map Prod.fst).Nodup := ((h.map Prod.fst).nodup_iff).mp hnd
  cases hl : respLookup rs1 bid with
  | none =>
    have h1 := (respLookup_eq_none_iff rs1 bid).mp hl
    have h2 : bid ∉ rs2.map Prod.fst :=
      fun hm => h1 (((h.map Prod.fst).mem_iff).mpr hm)
    exact ((respLookup_eq_none_iff rs2 bid).mpr h2).symm
  | some o =>
    have hmem := (respLookup_eq_some_iff rs1 bid o hnd).mp hl
    exact ((respLookup_eq_some_iff rs2 bid o hnd2).mpr (h.mem_iff.mp hmem)).symm

theorem chunkOps_length_le (maxB fuel : Nat) (ops : List BatchOp) :
    ∀ b ∈ chunkOps maxB fuel ops, b.length ≤ maxB := by
  induction fuel generalizing ops with
  | zero =>
    intro b hb
    simp [chunkOps] at hb
  | succ n ih =>
    intro b hb
    cases ops with
    | nil => simp [chunkOps] at hb
    | cons op rest =>
      simp only [chunkOps, List.mem_cons] at hb
      rcases hb with rfl | hb
      · exact List.length_take_le maxB (op :: rest)
      · exact ih _ b hb

theorem ledgerLookup_of_observe_absent {l : Ledger} {ref : String}
    (h : observe l ref = ObservedLedgerState.absent) : ledgerLookup l ref = none := by
  unfold observe at h
  cases hl : ledgerLookup l ref
  · rfl
  · rw [hl] at h
    exact absurd h (by simp)

theorem ledgerLookup_of_observe_present {l : Ledger} {ref d : String}
    (h : observe l ref = ObservedLedgerState.present d) :
    ledgerLookup l ref = some d := by
  unfold observe at h
  cases hl : ledgerLookup l ref
  · rw [hl] at h
    exact absurd h (by simp)
  · rw [hl] at h
    injection h with h
    rw [h]

theorem second_decision (l : Ledger) (ok1 : Nat → Bool) (idf1 : Nat → String)
    (cs : List Command) (c : Command) (hmem : c ∈ cs)
    (hnd : (cs.map Command.externalRef).Nodup)
    (hsucc : (runResultFor (fun ref => observe l ref) ok1 idf1 c).success = true) :
    decideAction c.desiredStatus (observe (reconcile l ok1 idf1 cs).2 c.externalRef)
      = Decision.noAction := by
  obtain ⟨pre, post, rfl⟩ := List.append_of_mem hmem
  rw [List.map_append, List.map_cons] at hnd
  have hpartition := List.nodup_append.mp hnd
  have hnotin1 : c.externalRef ∉ pre.map Command.externalRef := fun hm =>
    hpartition.2.2 hm (List.mem_cons_self _ _)
  have hnotin2 : c.externalRef ∉ post.map Command.externalRef :=
    (List.nodup_cons.mp hpartition.2.1).1
  have hnotpre : ∀ x ∈ pre, x.externalRef ≠ c.externalRef := fun x hx he =>
    hnotin1 (he ▸ List.mem_map_of_mem Command.externalRef hx)
  have hnotpost : ∀ x ∈ post, x.externalRef ≠ c.externalRef := fun x hx he =>
    hnotin2 (he ▸ List.mem_map_of_mem Command.externalRef hx)
  have hL : (reconcile l ok1 idf1 (pre ++ c :: post)).2
      = post.foldl (applyCommand (fun ref => observe l ref) ok1 idf1)
          (applyCommand (fun ref => observe l ref) ok1 idf1
            (pre.foldl (applyCommand (fun ref => observe l ref) ok1 idf1) l) c) := by
    simp [reconcile, List.foldl_append]
  have hpost := foldl_lookup_ne (fun ref => observe l ref) ok1 idf1 post
    (applyCommand (fun ref => observe l ref) ok1 idf1
      (pre.foldl (applyCommand (fun ref => observe l ref) ok1 idf1) l) c)
    c.externalRef hnotpost
  have hpre := foldl_lookup_ne (fun ref => observe l ref) ok1 idf1 pre l
    c.externalRef hnotpre
  rw [hL, observe_eq_of_lookup_eq hpost]
  cases hst : c.desiredStatus <;> cases hobs : observe l c.externalRef
  case active.absent =>
    have hlk := ledgerLookup_of_observe_absent hobs
    by_cases hk : ok1 c.batchId
    · simp [applyCommand, hst, hobs, hk, observe, ledgerLookup, decideAction, hlk]
    · simp [runResultFor, hst, hobs, hk, decideAction] at hsucc
  case active.present d =>
    rw [show applyCommand (fun ref => observe l ref) ok1 idf1
        (pre.foldl (applyCommand (fun ref => observe l ref) ok1 idf1) l) c
        = pre.foldl (applyCommand (fun ref => observe l ref) ok1 idf1) l by
      simp [applyCommand, hst, hobs, decideAction]]
    rw [observe_eq_of_lookup_eq hpre, hobs]
    rfl
  case completed.absent =>
    have hlk := ledgerLookup_of_observe_absent hobs
    by_cases hk : ok1 c.batchId
    · simp [applyCommand, hst, hobs, hk, observe, ledgerLookup, decideAction, hlk]
    · simp [runResultFor, hst, hobs, hk, decideAction] at hsucc
  case completed.present d =>
    rw [show applyCommand (fun ref => observe l ref) ok1 idf1
        (pre.foldl (applyCommand (fun ref => observe l ref) ok1 idf1) l) c
        = pre.foldl (applyCommand (fun ref => observe l ref) ok1 idf1) l by
      simp [applyCommand, hst, hobs, decideAction]]
    rw [observe_eq_of_lookup_eq hpre, hobs]
    rfl
  case inactive.absent =>
    rw [show applyCommand (fun ref => observe l ref) ok1 idf1
        (pre.foldl (applyCommand (fun ref => observe l ref) ok1 idf1) l) c
        = pre.foldl (applyCommand (fun ref => observe l ref) ok1 idf1) l by
      simp [applyCommand, hst, hobs, decideAction]]
    rw [observe_eq_of_lookup_eq hpre, hobs]
    rfl
  case inactive.present d =>
    have hlk := ledgerLookup_of_observe_present hobs
    by_cases hk : ok1 c.batchId
    · simp [applyCommand, hst, hobs, hk, observe, ledgerLookup_delete_self,
        decideAction, hlk]
    · simp [runResultFor, hst, hobs, hk, decideAction] at hsucc




/-! ## Claims -/

/-- C2: the decision function is total on all 3 x 2 combinations of
(desiredStatus, ObservedLedgerState) and equals exactly the table of spec
section 4.2: active/absent and completed/absent yield CreateDocument,
active/present and completed/present yield NoAction, inactive/absent yields
NoAction, and inactive/present id yields DeleteDocument(id); being a total
Lean function, no combination is unhandled and none yields any other value. -/
theorem C2_decision_table :
    decideAction DesiredStatus.active ObservedLedgerState.absent
      = Decision.createDocument ∧
    (∀ d, decideAction DesiredStatus.active (ObservedLedgerState.present d)
      = Decision.noAction) ∧
    decideAction DesiredStatus.completed ObservedLedgerState.absent
      = Decision.createDocument ∧
    (∀ d, decideAction DesiredStatus.completed (ObservedLedgerState.present d)
      = Decision.noAction) ∧
    decideAction DesiredStatus.inactive ObservedLedgerState.absent
      = Decision.noAction ∧
    (∀ d, decideAction DesiredStatus.inactive (ObservedLedgerState.present d)
      = Decision.deleteDocument d) :=
  ⟨rfl, fun _ => rfl, rfl, fun _ => rfl, rfl, fun _ => rfl⟩

/-- C7: for the quote with externalRef 12085, desiredStatus inactive and an
observed ledger state present with document id D1, reconcile decides
DeleteDocument(D1), reports a successful RunResult, and removes the document
from the ledger. -/
theorem C7_scenario_12085 :
    decideAction DesiredStatus.inactive (observe [("12085", "D1")] "12085")
      = Decision.deleteDocument "D1" ∧
    (runResultFor (observe [("12085", "D1")]) (fun _ => true) (fun _ => "N1")
      ⟨"12085", DesiredStatus.inactive, [], 1⟩).decision
      = Decision.deleteDocument "D1" ∧
    (runResultFor (observe [("12085", "D1")]) (fun _ => true) (fun _ => "N1")
      ⟨"12085", DesiredStatus.inactive, [], 1⟩).success = true ∧
    ledgerLookup
      (reconcile [("12085", "D1")] (fun _ => true) (fun _ => "N1")
        [⟨"12085", DesiredStatus.inactive, [], 1⟩]).2 "12085" = none := by
  decide

/-- C8: the frontend route guard never renders the dashboard — isAuthenticated
is false, so ProtectedRoute redirects to "/" instead of rendering its children,
the /dashboard route resolves to that redirect, and no path of the router
renders the Dashboard page. -/
theorem C8_dashboard_unreachable :
    isAuthenticated = false ∧
    ProtectedRoute Page.dashboard = RouteElement.redirect "/" ∧
    appRoute "/dashboard" = RouteElement.redirect "/" ∧
    ∀ path, appRoute path ≠ RouteElement.page Page.dashboard := by
  refine ⟨rfl, rfl, by decide, ?_⟩
  intro path
  by_cases h1 : path = "/"
  · simp [appRoute, h1]
  · by_cases h2 : path = "/dashboard"
    · simp [appRoute, h1, h2, ProtectedRoute, isAuthenticated]
    · simp [appRoute, h1, h2]

/-- C9 counterexample: the claim that the from_date parameter is present if
and only if a fromDate argument was supplied fails at fromDate = some "" —
the argument is supplied (isSome) but `if (fromDate)` is a JavaScript
truthiness test, so the empty string appends nothing and the parameter list
is empty. -/
theorem C9_counterexample :
    (some "" : Option String).isSome = true ∧
    initiateSyncParams (some "") false = [] ∧
    paramLookup (initiateSyncParams (some "") false) "from_date" = none := by
  decide

/-- C9 (amended): the from_date parameter is present, with the supplied value,
if and only if the fromDate argument was supplied and is a non-empty string
(JavaScript truthiness); the debug parameter is present with value "true" if
and only if debug is true; with no arguments the serialized query string is
empty and the requested URL is /api.v1/sync/initiate? . -/
theorem C9_query_building (fromDate : Option String) (debug : Bool) :
    paramLookup (initiateSyncParams fromDate debug) "from_date"
      = (match fromDate with
         | some d => if d = "" then none else some d
         | none => none) ∧
    paramLookup (initiateSyncParams fromDate debug) "debug"
      = (if debug then some "true" else none) ∧
    serializeParams (initiateSyncParams none false) = "" ∧
    initiateSyncUrl none false = "/api.v1/sync/initiate?" := by
  refine ⟨?_, ?_, rfl, rfl⟩
  · cases fromDate with
    | none => cases debug <;> simp [initiateSyncParams, paramLookup]
    | some d =>
      by_cases hd : d = "" <;>
        cases debug <;> simp [initiateSyncParams, paramLookup, hd]
  · cases fromDate with
    | none => cases debug <;> simp [initiateSyncParams, paramLookup]
    | some d =>
      by_cases hd : d = "" <;>
        cases debug <;> simp [initiateSyncParams, paramLookup, hd]

/-- C10: SyncTable renders the empty-state message and no table exactly when
its results prop is null/undefined (none) or an empty list, and for every
non-empty results list it renders a table with exactly one row per result,
keyed by that result's invoice_number, in the input list's order. -/
theorem C10_sync_table (results : Option (List SyncResultRow)) :
    ((∃ m, SyncTable results = SyncTableView.emptyState m)
      ↔ results = none ∨ results = some []) ∧
    SyncTable none = SyncTableView.emptyState "No sync results available." ∧
    ∀ rs, results = some rs → rs ≠ [] →
      SyncTable results = SyncTableView.table (rs.map fun r => (r.invoice_number, r)) := by
  refine ⟨?_, rfl, ?_⟩
  · cases results with
    | none => simp [SyncTable]
    | some rs =>
      cases rs with
      | nil => simp [SyncTable]
      | cons a t => simp [SyncTable]
  · rintro rs rfl hne
    cases rs with
    | nil => exact absurd rfl hne
    | cons a t => simp [SyncTable]

/-- C10 witness: instantiation of the SyncTable theorem at a concrete
one-element results list. -/
theorem C10_witness :
    (some [(⟨11338, "inactive", true, "No Action"⟩ : SyncResultRow)]
        = some [(⟨11338, "inactive", true, "No Action"⟩ : SyncResultRow)]) ∧
    ([(⟨11338, "inactive", true, "No Action"⟩ : SyncResultRow)] ≠ []) ∧
    SyncTable (some [⟨11338, "inactive", true, "No Action"⟩])
      = SyncTableView.table [((11338 : Int), ⟨11338, "inactive", true, "No Action"⟩)] :=
  ⟨rfl, by decide,
    (C10_sync_table (some [⟨11338, "inactive", true, "No Action"⟩])).2.2
      [⟨11338, "inactive", true, "No Action"⟩] rfl (by decide)⟩

/-- C1: the persisted sync cursor after a run is either unchanged — when the
run aborted or some RunResult failed — or equal to the run's start wall-clock
time when every RunResult is a success; it never advances on partial failure,
and it never decreases provided the run started no earlier than the cursor. -/
theorem C1_cursor_monotonic (cursor startTime : Nat) (debug : Bool)
    (results : List RunResult) (aborted : Bool) :
    ((aborted = true ∨ ∃ r ∈ results, r.success = false) →
      cursorAfterRun cursor startTime debug results aborted = cursor) ∧
    ((aborted = false ∧ ∀ r ∈ results, r.success = true) →
      cursorAfterRun cursor startTime debug results aborted = startTime) ∧
    (cursor ≤ startTime →
      cursor ≤ cursorAfterRun cursor startTime debug results aborted) ∧
    (cursorAfterRun cursor startTime debug results aborted = cursor ∨
      cursorAfterRun cursor startTime debug results aborted = startTime) := by
  have hbridge : allSuccess results = true ↔ ∀ r ∈ results, r.success = true := by
    simp [allSuccess, List.all_eq_true]
  refine ⟨?_, ?_, ?_, ?_⟩
  · rintro (ha | ⟨r, hr, hf⟩)
    · simp [cursorAfterRun, ha]
    · have hA : allSuccess results = false := by
        cases hA : allSuccess results
        · rfl
        · exact absurd (hbridge.mp hA r hr) (by simp [hf])
      cases aborted <;> simp [cursorAfterRun, orchestrate, hA]
  · rintro ⟨ha, hall⟩
    simp [cursorAfterRun, ha, orchestrate, hbridge.mpr hall]
  · intro hle
    cases aborted
    · cases hA : allSuccess results <;>
        simp [cursorAfterRun, orchestrate, hA, hle]
    · simp [cursorAfterRun]
  · cases aborted
    · cases hA : allSuccess results <;>
        simp [cursorAfterRun, orchestrate, hA]
    · simp [cursorAfterRun]

/-- C1 witness: instantiation of the cursor theorem at a run with one failed
RunResult — the cursor stays at 3 and does not advance to the start time 7 —
and discharge of the never-decreases clause. -/
theorem C1_witness :
    ((false = true ∨ ∃ r ∈ [(⟨"12082", Decision.createDocument, false, none,
        some "remote failure"⟩ : RunResult)], r.success = false) →
      cursorAfterRun 3 7 false [⟨"12082", Decision.createDocument, false, none,
        some "remote failure"⟩] false = 3) ∧
    cursorAfterRun 3 7 false [⟨"12082", Decision.createDocument, false, none,
        some "remote failure"⟩] false = 3 ∧
    (3 ≤ 7 ∧ 3 ≤ cursorAfterRun 3 7 false [⟨"12082", Decision.createDocument,
        false, none, some "remote failure"⟩] false) :=
  ⟨(C1_cursor_monotonic 3 7 false _ false).1,
    (C1_cursor_monotonic 3 7 false _ false).1
      (Or.inr ⟨_, List.mem_singleton.mpr rfl, rfl⟩),
    by decide,
    (C1_cursor_monotonic 3 7 false _ false).2.2.1 (by decide)⟩

/-- C6: a DebugArtifact is written if and only if the run failed or debug mode
was explicitly requested; on a fully successful run with debug = false no
debug artifact is created. -/
theorem C6_debug_artifact (cursor startTime : Nat) (debug : Bool)
    (results : List RunResult) :
    ((orchestrate cursor startTime debug results).debugArtifactWritten = true ↔
      (orchestrate cursor startTime debug results).runFailed = true ∨ debug = true) ∧
    (allSuccess results = true →
      (orchestrate cursor startTime false results).debugArtifactWritten = false) := by
  constructor
  · cases debug <;> cases hA : allSuccess results <;>
      simp [orchestrate, hA]
  · intro h
    simp [orchestrate, h]

/-- C6 witness: instantiation at a fully successful run — with debug = false
no artifact is written, and the characterization holds at debug = true. -/
theorem C6_witness :
    allSuccess [(⟨"11802", Decision.noAction, true, none, none⟩ : RunResult)] = true ∧
    (orchestrate 3 7 false [(⟨"11802", Decision.noAction, true, none, none⟩ :
      RunResult)]).debugArtifactWritten = false ∧
    ((orchestrate 3 7 true [(⟨"11802", Decision.noAction, true, none, none⟩ :
        RunResult)]).debugArtifactWritten = true ↔
      (orchestrate 3 7 true [(⟨"11802", Decision.noAction, true, none, none⟩ :
        RunResult)]).runFailed = true ∨ true = true) :=
  ⟨by decide,
    (C6_debug_artifact 3 7 false _).2 (by decide),
    (C6_debug_artifact 3 7 true _).1⟩

/-- C5: every batch the engine partitions a command list into contains at most
the configured maximum batch size of operations; the Ledger Adapter's
submitBatch rejects any larger batch locally — its result is the local
rejection whatever the remote transport would answer — and every batch the
engine produces is accepted and submitted. -/
theorem C5_batch_partition (maxB : Nat) (ops : List BatchOp) :
    (∀ b ∈ partitionBatches maxB ops, b.length ≤ maxB) ∧
    (∀ (remote : List BatchOp → List (Nat × Outcome)) (b : List BatchOp),
      maxB < b.length →
      submitBatch maxB remote b
        = AdapterResult.rejectedLocally "batch size exceeds limit") ∧
    (∀ (remote : List BatchOp → List (Nat × Outcome)),
      ∀ b ∈ partitionBatches maxB ops,
      submitBatch maxB remote b = AdapterResult.submitted (remote b)) := by
  refine ⟨fun b hb => chunkOps_length_le maxB ops.length ops b hb, ?_, ?_⟩
  · intro remote b h
    simp [submitBatch, h]
  · intro remote b hb
    have hle := chunkOps_length_le maxB ops.length ops b hb
    simp [submitBatch, Nat.not_lt.mpr hle]

/-- C5 witness: instantiation at maximum batch size 2 — a three-operation list
partitions into batches of at most 2, and handing the unpartitioned
three-operation list to submitBatch is rejected locally. -/
theorem C5_witness :
    (∀ b ∈ partitionBatches 2 [⟨1, OpType.create, "a"⟩, ⟨2, OpType.create, "b"⟩,
        ⟨3, OpType.delete, "c"⟩], b.length ≤ 2) ∧
    (2 : Nat) < ([(⟨1, OpType.create, "a"⟩ : BatchOp), ⟨2, OpType.create, "b"⟩,
        ⟨3, OpType.delete, "c"⟩] : List BatchOp).length ∧
    submitBatch 2 (fun _ => []) [⟨1, OpType.create, "a"⟩, ⟨2, OpType.create, "b"⟩,
        ⟨3, OpType.delete, "c"⟩]
      = AdapterResult.rejectedLocally "batch size exceeds limit" :=
  ⟨(C5_batch_partition 2 _).1,
    by decide,
    (C5_batch_partition 2 []).2.1 (fun _ => []) _ (by decide)⟩

/-- C4: for every command list and every permutation of the remote batch API's
sub-responses with run-unique batch ids, the RunResults produced by the
correlation step are identical — each sub-response is attributed by batchId,
never by array position — and the results are one per input command, in input
order, the i-th result carrying the i-th command's externalRef. -/
theorem C4_correlation (snap : String → ObservedLedgerState) (cs : List Command)
    (rs1 rs2 : List (Nat × Outcome)) (hperm : rs1.Perm rs2)
    (hnd : (rs1.map Prod.fst).Nodup) :
    correlateResults snap rs1 cs = correlateResults snap rs2 cs ∧
    (correlateResults snap rs1 cs).length = cs.length ∧
    ∀ i : Nat, ((correlateResults snap rs1 cs)[i]?).map RunResult.externalRef
      = (cs[i]?).map Command.externalRef := by
  refine ⟨?_, by simp [correlateResults], ?_⟩
  · unfold correlateResults
    have hf : (fun c : Command =>
        resultFromOutcome c (decideAction c.desiredStatus (snap c.externalRef))
          (respLookup rs1 c.batchId))
        = fun c : Command =>
        resultFromOutcome c (decideAction c.desiredStatus (snap c.externalRef))
          (respLookup rs2 c.batchId) :=
      funext fun c => by rw [respLookup_perm rs1 rs2 hperm hnd]
    rw [hf]
  · intro i
    simp only [correlateResults, List.getElem?_map]
    cases cs[i]? with
    | none => rfl
    | some c => simp [resultFromOutcome_externalRef]

/-- C4 witness: instantiation at two commands and the two-element response list
returned in reversed order — the correlated results coincide. -/
theorem C4_witness :
    ([((1 : Nat), Outcome.ok (some "X")), (2, Outcome.err "boom")].Perm
      [((2 : Nat), Outcome.err "boom"), (1, Outcome.ok (some "X"))]) ∧
    (([((1 : Nat), Outcome.ok (some "X")), (2, Outcome.err "boom")].map
        Prod.fst).Nodup) ∧
    correlateResults (fun _ => ObservedLedgerState.absent)
        [(1, Outcome.ok (some "X")), (2, Outcome.err "boom")]
        [⟨"12082", DesiredStatus.completed, [], 1⟩,
          ⟨"12044", DesiredStatus.active, [], 2⟩]
      = correlateResults (fun _ => ObservedLedgerState.absent)
        [(2, Outcome.err "boom"), (1, Outcome.ok (some "X"))]
        [⟨"12082", DesiredStatus.completed, [], 1⟩,
          ⟨"12044", DesiredStatus.active, [], 2⟩] :=
  ⟨List.Perm.swap (2, Outcome.err "boom") (1, Outcome.ok (some "X")) [],
    by decide,
    (C4_correlation (fun _ => ObservedLedgerState.absent)
      [⟨"12082", DesiredStatus.completed, [], 1⟩,
        ⟨"12044", DesiredStatus.active, [], 2⟩]
      [(1, Outcome.ok (some "X")), (2, Outcome.err "boom")]
      [(2, Outcome.err "boom"), (1, Outcome.ok (some "X"))]
      (List.Perm.swap (2, Outcome.err "boom") (1, Outcome.ok (some "X")) [])
      (by decide)).1⟩

/-- C3: reconcile is idempotent — for commands with run-unique externalRefs,
if the i-th RunResult of a first reconcile run succeeded, then running
reconcile again on the same commands against the ledger state left by the
first run yields decision NoAction for the i-th command, whatever the remote
oracle and id assignment of the second run. -/
theorem C3_idempotent (l : Ledger) (ok1 ok2 : Nat → Bool)
    (idf1 idf2 : Nat → String) (cs : List Command) (i : Nat) (r1 : RunResult)
    (hnd : (cs.map Command.externalRef).Nodup)
    (h1 : (reconcile l ok1 idf1 cs).1[i]? = some r1)
    (hsucc : r1.success = true) :
    ((reconcile (reconcile l ok1 idf1 cs).2 ok2 idf2 cs).1[i]?).map
      RunResult.decision = some Decision.noAction := by
  have hc : ∃ c, cs[i]? = some c ∧
      runResultFor (fun ref => observe l ref) ok1 idf1 c = r1 := by
    simpa [reconcile, List.getElem?_map, Option.map_eq_some'] using h1
  obtain ⟨c, hci, hr⟩ := hc
  have hmem : c ∈ cs := by
    rcases List.getElem?_eq_some.mp hci with ⟨h, rfl⟩
    exact List.getElem_mem h
  have hsc : (runResultFor (fun ref => observe l ref) ok1 idf1 c).success = true := by
    rw [hr]
    exact hsucc
  simp only [reconcile, List.getElem?_map, hci, Option.map_some']
  rw [runResultFor_decision]
  exact congrArg some (second_decision l ok1 idf1 cs c hmem hnd hsc)

/-- C3 witness: instantiation at the single-command run for quote 12082 — the
first run creates the document with ledger id Q1 and succeeds, and the second
run against the resulting ledger decides NoAction. -/
theorem C3_witness :
    ((([(⟨"12082", DesiredStatus.completed, [], 1⟩ : Command)]).map
        Command.externalRef).Nodup) ∧
    ((reconcile [] (fun _ => true) (fun _ => "Q1")
        [⟨"12082", DesiredStatus.completed, [], 1⟩]).1[0]?
      = some ⟨"12082", Decision.createDocument, true, some "Q1", none⟩) ∧
    (RunResult.success ⟨"12082", Decision.createDocument, true, some "Q1", none⟩
      = true) ∧
    (((reconcile (reconcile [] (fun _ => true) (fun _ => "Q1")
          [⟨"12082", DesiredStatus.completed, [], 1⟩]).2
        (fun _ => true) (fun _ => "Q2")
        [⟨"12082", DesiredStatus.completed, [], 1⟩]).1[0]?).map
      RunResult.decision = some Decision.noAction) :=
  ⟨by decide, by decide, rfl,
    C3_idempotent [] (fun _ => true) (fun _ => true) (fun _ => "Q1")
      (fun _ => "Q2") [⟨"12082", DesiredStatus.completed, [], 1⟩] 0
      ⟨"12082", Decision.createDocument, true, some "Q1", none⟩
      (by decide) (by decide) rfl⟩

/-- C8 witness: instantiation of the route-guard theorem at a concrete path. -/
theorem C8_witness :
    appRoute "/dashboard" = RouteElement.redirect "/" ∧
    appRoute "/dashboard" ≠ RouteElement.page Page.dashboard :=
  ⟨C8_dashboard_unreachable.2.2.1, C8_dashboard_unreachable.2.2.2 "/dashboard"⟩

/-- C9 witness: instantiation of the amended query-building theorem at a
concrete supplied non-empty fromDate with debug requested. -/
theorem C9_witness :
    paramLookup (initiateSyncParams (some "2025-01-01T00:00:00") true) "from_date"
      = some "2025-01-01T00:00:00" ∧
    paramLookup (initiateSyncParams (some "2025-01-01T00:00:00") true) "debug"
      = some "true" :=
  ⟨(C9_query_building (some "2025-01-01T00:00:00") true).1,
    (C9_query_building (some "2025-01-01T00:00:00") true).2.1⟩
